import Mathlib

/-!
Shallow embedding of `apps/health/views.py` from the django-saas-backend
repository, together with theorems about the behaviour of
`HealthCheckView.get`.

The Python source is:

```
class HealthCheckView(APIView):
    authentication_classes = []
    permission_classes = []

    def get(self, request):
        try:
            connections["default"].cursor()
            db_status = "up"
        except Exception:
            db_status = "down"

        return Response(
            {
                "status": "ok",
                "database": db_status,
            }
        )
```

Modelling choices:
* A Python exception value is a class name plus a flag recording whether the
  class derives from `Exception` (as opposed to deriving only from
  `BaseException`, as `KeyboardInterrupt` and `SystemExit` do).
* The database is an environment `String → ProbeOutcome` giving, for each
  connection alias, what `connections[alias].cursor()` does on this
  invocation: return a cursor object, or raise an exception.
* Effects are made explicit in an `EffectTrace`: the list of probe calls
  performed (in order) and the number of datastore writes performed.
* `get` returns `Except PyExc Response`: `.error e` means the Python call
  raised `e` out of the handler instead of returning a response.
-/

namespace Health

/-- A Python exception value: the name of its class and whether that class
derives from `Exception` (rather than only from `BaseException`). -/
structure PyExc where
  name : String
  derivesException : Bool
deriving DecidableEq, Repr

/-- An opaque database cursor object, as returned by
`connections["default"].cursor()`.  Only its identity matters. -/
structure Cursor where
  id : Nat
deriving DecidableEq, Repr

/-- What one call `connections[a].cursor()` does: produce a cursor, or raise
an exception. -/
inductive ProbeOutcome where
  | success (c : Cursor)
  | raises (e : PyExc)
deriving DecidableEq, Repr

/-- An inbound HTTP request object: query parameters, headers and body.
`HealthCheckView.get` receives one but never inspects it. -/
structure Request where
  params : List (String × String)
  headers : List (String × String)
  body : String
deriving DecidableEq, Repr

/-- A DRF `Response`.  `Response(data)` with no explicit status argument
carries the implicit success status code 200, and `body` is the JSON
object passed to it, as an association list of string keys and values. -/
structure Response where
  statusCode : Nat
  body : List (String × String)
deriving DecidableEq, Repr

/-- The record of externally visible effects performed during an invocation:
which connection aliases were probed via `.cursor()` (in order), and how
many datastore writes were issued. -/
structure EffectTrace where
  probes : List String
  writes : Nat
deriving DecidableEq, Repr

/-- Credentials carried by an inbound request: none at all, or some token. -/
inductive Credentials where
  | missing
  | token (s : String)
deriving DecidableEq, Repr

/-- `connections[a].cursor()`: looks up the probe outcome the database
environment assigns to alias `a`, and records the probe call in the
effect trace (the attempt is recorded whether it succeeds or raises). -/
def cursor (env : String → ProbeOutcome) (a : String) (t : EffectTrace) :
    ProbeOutcome × EffectTrace :=
  (env a, { t with probes := t.probes ++ [a] })

/-- An authentication class, as listed in `authentication_classes`:
attempts to authenticate a request, yielding the user name on success. -/
structure AuthClass where
  authenticate : Request → Credentials → Option String

/-- A permission class, as listed in `permission_classes`: decides whether
a request with the given credentials may proceed. -/
structure PermClass where
  has_permission : Request → Credentials → Bool

/-- The view class: its two class attributes from the source,
`authentication_classes` and `permission_classes`. -/
structure HealthCheckView where
  authentication_classes : List AuthClass
  permission_classes : List PermClass

/-- The `HealthCheckView` exactly as declared in the source:
`authentication_classes = []` and `permission_classes = []`. -/
def HealthCheckView.default : HealthCheckView :=
  { authentication_classes := [], permission_classes := [] }

/-- `HealthCheckView.get`, translated line by line from the source:
try `connections["default"].cursor()` and set `db_status = "up"`;
an exception deriving from `Exception` is caught and sets
`db_status = "down"`; any other raised value propagates out of the
handler; finally return
`Response({"status": "ok", "database": db_status})`. -/
def HealthCheckView.get (self : HealthCheckView) (request : Request)
    (env : String → ProbeOutcome) (t : EffectTrace) :
    Except PyExc Response × HealthCheckView × EffectTrace :=
  let probed := cursor env "default" t
  match probed.1 with
  | ProbeOutcome.success _ =>
      (Except.ok ⟨200, [("status", "ok"), ("database", "up")]⟩, self, probed.2)
  | ProbeOutcome.raises e =>
      if e.derivesException then
        (Except.ok ⟨200, [("status", "ok"), ("database", "down")]⟩, self, probed.2)
      else
        (Except.error e, self, probed.2)

/-- Modelled from the spec: the host framework's request dispatch
(`APIView.dispatch` of the external web framework, not part of this
repository's source).  Per the spec, authentication and authorization
gate the route only through the view's declared permission classes: the
dispatcher denies the request (HTTP 403, view body never produced) when
some declared permission class refuses it, and otherwise invokes the
view's `get` handler. -/
def dispatch (view : HealthCheckView) (request : Request) (creds : Credentials)
    (env : String → ProbeOutcome) (t : EffectTrace) :
    Except PyExc Response × HealthCheckView × EffectTrace :=
  if view.permission_classes.all (fun p => p.has_permission request creds) then
    view.get request env t
  else
    (Except.ok ⟨403, [("detail", "forbidden")]⟩, view, t)

/-- A concrete request with no interesting content, for witnesses. -/
def req0 : Request := { params := [], headers := [], body := "" }

/-- The empty effect trace, for witnesses. -/
def t0 : EffectTrace := { probes := [], writes := 0 }

/-- Claim C1: for every invocation of `HealthCheckView.get`, whatever the
database probe does, any response body the handler returns has its
`"status"` field equal to the literal string `"ok"`. -/
theorem get_status_always_ok (self : HealthCheckView) (request : Request)
    (env : String → ProbeOutcome) (t : EffectTrace) (resp : Response)
    (h : (self.get request env t).1 = Except.ok resp) :
    resp.body.lookup "status" = some "ok" := by
  cases henv : env "default" with
  | success c =>
      simp [HealthCheckView.get, cursor, henv] at h
      simp [← h]
  | raises e =>
      by_cases hd : e.derivesException <;>
        simp [HealthCheckView.get, cursor, henv, hd] at h
      simp [← h]

/-- Witness for claim C1 at a concrete invocation with a succeeding probe. -/
theorem get_status_always_ok_witness :
    (HealthCheckView.default.get req0 (fun _ => ProbeOutcome.success ⟨0⟩) t0).1
        = Except.ok ⟨200, [("status", "ok"), ("database", "up")]⟩ ∧
    (⟨200, [("status", "ok"), ("database", "up")]⟩ : Response).body.lookup "status"
        = some "ok" :=
  ⟨rfl, get_status_always_ok HealthCheckView.default req0
    (fun _ => ProbeOutcome.success ⟨0⟩) t0
    ⟨200, [("status", "ok"), ("database", "up")]⟩ rfl⟩

/-- Claim C2 counterexample: a concrete invocation in which the probe raises
`KeyboardInterrupt`, whose class derives from `BaseException` but not from
`Exception`.  Contrary to the claim that any exception type whatsoever is
caught unconditionally, `except Exception` does not catch it: the exception
propagates out of the handler and no body with `database = "down"` is
returned. -/
theorem get_keyboard_interrupt_escapes :
    (HealthCheckView.default.get req0
        (fun _ => ProbeOutcome.raises ⟨"KeyboardInterrupt", false⟩) t0).1
      = Except.error ⟨"KeyboardInterrupt", false⟩ := rfl

/-- Claim C2 (amended): whenever the probe raises an exception whose class
derives from `Exception`, the handler catches it, no exception propagates,
and the returned body's `database` field equals `"down"` (with status 200). -/
theorem get_exception_caught (self : HealthCheckView) (request : Request)
    (env : String → ProbeOutcome) (t : EffectTrace) (e : PyExc)
    (henv : env "default" = ProbeOutcome.raises e)
    (hd : e.derivesException = true) :
    (self.get request env t).1
      = Except.ok ⟨200, [("status", "ok"), ("database", "down")]⟩ := by
  simp [HealthCheckView.get, cursor, henv, hd]

/-- Witness for the amended claim C2 with a concrete driver exception. -/
theorem get_exception_caught_witness :
    ((fun _ => ProbeOutcome.raises (⟨"OperationalError", true⟩ : PyExc)) "default"
        = ProbeOutcome.raises ⟨"OperationalError", true⟩) ∧
    (PyExc.derivesException ⟨"OperationalError", true⟩ = true) ∧
    (HealthCheckView.default.get req0
        (fun _ => ProbeOutcome.raises ⟨"OperationalError", true⟩) t0).1
      = Except.ok ⟨200, [("status", "ok"), ("database", "down")]⟩ :=
  ⟨rfl, rfl, get_exception_caught HealthCheckView.default req0
    (fun _ => ProbeOutcome.raises ⟨"OperationalError", true⟩) t0
    ⟨"OperationalError", true⟩ rfl rfl⟩

/-- Claim C3: whenever the probe (acquiring a cursor on the `"default"`
connection) succeeds, the returned body's `database` field equals `"up"`. -/
theorem get_probe_success_up (self : HealthCheckView) (request : Request)
    (env : String → ProbeOutcome) (t : EffectTrace) (c : Cursor)
    (henv : env "default" = ProbeOutcome.success c) :
    (self.get request env t).1
      = Except.ok ⟨200, [("status", "ok"), ("database", "up")]⟩ := by
  simp [HealthCheckView.get, cursor, henv]

/-- Witness for claim C3 at a concrete succeeding probe. -/
theorem get_probe_success_up_witness :
    ((fun _ => ProbeOutcome.success (⟨7⟩ : Cursor)) "default"
        = ProbeOutcome.success ⟨7⟩) ∧
    (HealthCheckView.default.get req0 (fun _ => ProbeOutcome.success ⟨7⟩) t0).1
      = Except.ok ⟨200, [("status", "ok"), ("database", "up")]⟩ :=
  ⟨rfl, get_probe_success_up HealthCheckView.default req0
    (fun _ => ProbeOutcome.success ⟨7⟩) t0 ⟨7⟩ rfl⟩

/-- Claim C4: every response the handler returns carries HTTP status
code 200, including when the database probe fails. -/
theorem get_http_status_200 (self : HealthCheckView) (request : Request)
    (env : String → ProbeOutcome) (t : EffectTrace) (resp : Response)
    (h : (self.get request env t).1 = Except.ok resp) :
    resp.statusCode = 200 := by
  cases henv : env "default" with
  | success c =>
      simp [HealthCheckView.get, cursor, henv] at h
      simp [← h]
  | raises e =>
      by_cases hd : e.derivesException <;>
        simp [HealthCheckView.get, cursor, henv, hd] at h
      simp [← h]

/-- Witness for claim C4 at a concrete invocation with a failing probe. -/
theorem get_http_status_200_witness :
    (HealthCheckView.default.get req0
        (fun _ => ProbeOutcome.raises ⟨"InterfaceError", true⟩) t0).1
        = Except.ok ⟨200, [("status", "ok"), ("database", "down")]⟩ ∧
    (⟨200, [("status", "ok"), ("database", "down")]⟩ : Response).statusCode = 200 :=
  ⟨rfl, get_http_status_200 HealthCheckView.default req0
    (fun _ => ProbeOutcome.raises ⟨"InterfaceError", true⟩) t0
    ⟨200, [("status", "ok"), ("database", "down")]⟩ rfl⟩

/-- Claim C5: every invocation performs exactly one database probe: the trace
of cursor acquisitions grows by exactly the single entry `"default"`,
whatever the probe's outcome (no retry on failure, no duplicate on
success). -/
theorem get_exactly_one_probe (self : HealthCheckView) (request : Request)
    (env : String → ProbeOutcome) (t : EffectTrace) :
    ((self.get request env t).2.2).probes = t.probes ++ ["default"] := by
  cases henv : env "default" with
  | success c => simp [HealthCheckView.get, cursor, henv]
  | raises e =>
      by_cases hd : e.derivesException <;>
        simp [HealthCheckView.get, cursor, henv, hd]

/-- Claim C6: the view declares empty `authentication_classes` and
`permission_classes`, so the framework dispatch of a request carrying no
credentials reaches the `get` handler, and such a request succeeds
(a succeeding probe yields the 200 response). -/
theorem no_auth_required :
    HealthCheckView.default.authentication_classes = [] ∧
    HealthCheckView.default.permission_classes = [] ∧
    ∀ (request : Request) (env : String → ProbeOutcome) (t : EffectTrace),
      dispatch HealthCheckView.default request Credentials.missing env t
          = HealthCheckView.default.get request env t ∧
      ∀ c : Cursor,
        (dispatch HealthCheckView.default request Credentials.missing
            (fun _ => ProbeOutcome.success c) t).1
          = Except.ok ⟨200, [("status", "ok"), ("database", "up")]⟩ :=
  ⟨rfl, rfl, fun _ _ _ => ⟨rfl, fun _ => rfl⟩⟩

/-- Claim C7: noninterference of request content: `get` never inspects the
inbound request, so two invocations with different request objects but the
same database environment and prior trace produce identical results. -/
theorem get_request_noninterference (self : HealthCheckView) (r₁ r₂ : Request)
    (env : String → ProbeOutcome) (t : EffectTrace) :
    self.get r₁ env t = self.get r₂ env t := rfl

/-- Claim C8: the handler is stateless and frame-preserving: an invocation
returns the view object unchanged, performs no datastore write, performs
exactly the one read-only probe, and its response is independent of any
prior effect trace, so consecutive invocations are independent. -/
theorem get_stateless_frame (self : HealthCheckView) (request : Request)
    (env : String → ProbeOutcome) (t : EffectTrace) :
    (self.get request env t).2.1 = self ∧
    ((self.get request env t).2.2).writes = t.writes ∧
    ((self.get request env t).2.2).probes = t.probes ++ ["default"] ∧
    ∀ t' : EffectTrace, (self.get request env t).1 = (self.get request env t').1 := by
  cases henv : env "default" with
  | success c =>
      refine ⟨?_, ?_, ?_, fun t' => ?_⟩ <;> simp [HealthCheckView.get, cursor, henv]
  | raises e =>
      by_cases hd : e.derivesException <;>
        (refine ⟨?_, ?_, ?_, fun t' => ?_⟩ <;>
          simp [HealthCheckView.get, cursor, henv, hd])

/-- Claim C9: the `except Exception` clause catches exactly the `Exception`
hierarchy: a raised value whose class derives from `BaseException` but not
from `Exception` (such as `KeyboardInterrupt` or `SystemExit`) is not
caught and propagates out of the handler. -/
theorem get_base_exception_propagates (self : HealthCheckView) (request : Request)
    (env : String → ProbeOutcome) (t : EffectTrace) (e : PyExc)
    (henv : env "default" = ProbeOutcome.raises e)
    (hd : e.derivesException = false) :
    (self.get request env t).1 = Except.error e := by
  simp [HealthCheckView.get, cursor, henv, hd]

/-- Witness for claim C9 with a concrete `SystemExit`. -/
theorem get_base_exception_propagates_witness :
    ((fun _ => ProbeOutcome.raises (⟨"SystemExit", false⟩ : PyExc)) "default"
        = ProbeOutcome.raises ⟨"SystemExit", false⟩) ∧
    (PyExc.derivesException ⟨"SystemExit", false⟩ = false) ∧
    (HealthCheckView.default.get req0
        (fun _ => ProbeOutcome.raises ⟨"SystemExit", false⟩) t0).1
      = Except.error ⟨"SystemExit", false⟩ :=
  ⟨rfl, rfl, get_base_exception_propagates HealthCheckView.default req0
    (fun _ => ProbeOutcome.raises ⟨"SystemExit", false⟩) t0
    ⟨"SystemExit", false⟩ rfl rfl⟩

/-- Claim C10: any body the handler returns is a mapping with exactly the two
keys `"status"` and `"database"`, its `"database"` value lies in
{"up", "down"}, and the cursor object produced by a successful probe never
influences the result. -/
theorem get_body_shape (self : HealthCheckView) (request : Request)
    (env : String → ProbeOutcome) (t : EffectTrace) (resp : Response)
    (h : (self.get request env t).1 = Except.ok resp) :
    (resp.body.map Prod.fst = ["status", "database"] ∧
      (resp.body.lookup "database" = some "up" ∨
        resp.body.lookup "database" = some "down")) ∧
    ∀ (c₁ c₂ : Cursor) (t' : EffectTrace),
      self.get request (fun _ => ProbeOutcome.success c₁) t'
        = self.get request (fun _ => ProbeOutcome.success c₂) t' := by
  refine ⟨?_, fun c₁ c₂ t' => rfl⟩
  cases henv : env "default" with
  | success c =>
      simp [HealthCheckView.get, cursor, henv] at h
      subst h
      decide
  | raises e =>
      by_cases hd : e.derivesException <;>
        simp [HealthCheckView.get, cursor, henv, hd] at h
      subst h
      decide

/-- Witness for claim C10 at a concrete invocation with a failing probe. -/
theorem get_body_shape_witness :
    (HealthCheckView.default.get req0
        (fun _ => ProbeOutcome.raises ⟨"ConnectionError", true⟩) t0).1
        = Except.ok ⟨200, [("status", "ok"), ("database", "down")]⟩ ∧
    ((⟨200, [("status", "ok"), ("database", "down")]⟩ : Response).body.map Prod.fst
        = ["status", "database"] ∧
      ((⟨200, [("status", "ok"), ("database", "down")]⟩ : Response).body.lookup "database"
          = some "up" ∨
        (⟨200, [("status", "ok"), ("database", "down")]⟩ : Response).body.lookup "database"
          = some "down")) :=
  ⟨rfl, (get_body_shape HealthCheckView.default req0
    (fun _ => ProbeOutcome.raises ⟨"ConnectionError", true⟩) t0
    ⟨200, [("status", "ok"), ("database", "down")]⟩ rfl).1⟩

end Health
